import Mathlib

/-!
# Verification of the SNS verification-email Lambda handler

Shallow embedding of `src/index.js`: an AWS Lambda handler that parses an
SNS event, builds an SES `sendEmail` request, awaits it, and maps the
outcome to an HTTP-style result.

Modelling choices, all taken from the source:
* A JavaScript value extracted by destructuring a parsed JSON object is
  either a string or `undefined` (`JsValue`).  String coercion of
  `undefined` (as in `"a" + undefined` or a template literal) yields the
  string `"undefined"` (`jsToString`).  The array literal
  `ToAddresses: [email]` performs no coercion, so it holds the raw value.
* `JSON.parse` of the SNS message is an opaque builtin: its result is
  embedded as `Option (List (String × String))` — `none` when the message
  is not valid JSON, otherwise the parsed flat object as a key/value list
  (the payload fields of this application are all strings).  Duplicate
  keys follow JSON.parse semantics: the last occurrence wins.
* An empty `Records` list makes `event.Records[0].Sns` a property access
  on `undefined`, a `TypeError`; an unparseable message makes
  `JSON.parse` throw a `SyntaxError`.  Both are outside any try/catch, so
  the handler faults (`Except.error`).
* The email collaborator (`SES.sendEmail(params).promise()`) is a
  parameter of the handler: for a given request it can resolve, reject,
  or throw synchronously while setting up the invocation.  The whole
  expression sits inside the `try` block of the source, so every one of
  these failure shapes reaches the `catch`.
* The handler also returns the list of send invocations it performed, so
  that "invoked exactly once with these params" is a statement about the
  returned trace.
-/

/-- A JavaScript value obtained by destructuring a parsed JSON object:
either a string field value or `undefined` for a missing field. -/
inductive JsValue where
  | undefined
  | str (s : String)
deriving DecidableEq, Repr

/-- JavaScript string coercion as performed by `+` on strings and by
template literals: `undefined` prints as `"undefined"`. -/
def jsToString : JsValue → String
  | .undefined => "undefined"
  | .str s => s

/-- Field access on a parsed JSON object, as performed by the
destructuring of `JSON.parse(event.Records[0].Sns.Message)`; a missing
key yields `undefined`, and with duplicate keys `JSON.parse` keeps the
last occurrence. -/
def lookupField (obj : List (String × String)) (k : String) : JsValue :=
  match (obj.filter (fun kv => kv.1 == k)).getLast? with
  | some kv => .str kv.2
  | none => .undefined

/-- The `Sns` object of an event record: its `Message` is the embedded
JSON string, embedded here as the result of `JSON.parse` on it (`none`
when the string is not valid JSON). -/
structure SnsBody where
  Message : Option (List (String × String))
deriving DecidableEq

/-- One record of the trigger event. -/
structure SnsRecord where
  Sns : SnsBody
deriving DecidableEq

/-- The trigger event: `event.Records` is a list of records. -/
structure Event where
  Records : List SnsRecord
deriving DecidableEq

/-- Destination of the SES request: the array literal
`ToAddresses: [email]` holds the raw JavaScript value, with no string
coercion. -/
structure SesDestination where
  ToAddresses : List JsValue
deriving DecidableEq

/-- The SES `sendEmail` request built by the handler
(`Destination` / `Message.Body.Html.Data` / `Message.Subject.Data` /
`Source`, flattened). -/
structure SesParams where
  Destination : SesDestination
  HtmlData : String
  SubjectData : String
  Source : String
deriving DecidableEq

/-- Verification URL, built by the source as
`"http://...?email=" + email + "&token=" + token + ""`. -/
def verificationLink (email token : JsValue) : String :=
  "http://prod.polepeddiaravind.me/v1/verifyUserEmail?email=" ++ jsToString email
    ++ "&token=" ++ jsToString token ++ ""

/-- The template literal for `Message.Body.Html.Data`. -/
def htmlData (first_name last_name : JsValue) (verificationLink : String) : String :=
  "<html><body>Hello " ++ jsToString first_name ++ " " ++ jsToString last_name
    ++ ",<br> Thank you for subscribing. To use the portal verify by clicking the below link.<br><br><a href="
    ++ verificationLink
    ++ ">Verify your account</a><br><br><br> Kind Regards,<br> <strong>Team CSYE6225!<strong></body></html>"

/-- Construction of `params` from the destructured payload fields
(`password` and `username` are destructured by the source but never
read afterwards). -/
def buildParams (obj : List (String × String)) : SesParams :=
  let first_name := lookupField obj "first_name"
  let last_name := lookupField obj "last_name"
  let _password := lookupField obj "password"
  let _username := lookupField obj "username"
  let email := lookupField obj "email"
  let token := lookupField obj "token"
  { Destination := { ToAddresses := [email] }
    HtmlData := htmlData first_name last_name (verificationLink email token)
    SubjectData := "Subscribe to the link to use service"
    Source := "aravind@yprod.polepeddiaravind.me" }

/-- Outcome of one collaborator invocation
`SES.sendEmail(params).promise()`: the promise resolves, the promise
rejects, or the synchronous setup of the invocation throws. -/
inductive SendOutcome where
  | resolves
  | rejects (e : String)
  | setupThrow (e : String)
deriving DecidableEq

/-- An unhandled fault of the invocation (propagates to the platform). -/
inductive Fault where
  | typeError
  | syntaxError
deriving DecidableEq

/-- The value returned by the handler on normal completion. -/
structure HandlerResult where
  statusCode : Nat
  body : String
deriving DecidableEq

/-- The Lambda handler of `src/index.js`.  `send` is the email
collaborator; the result carries the `HandlerResult` together with the
trace of collaborator invocations performed.  Faults (empty `Records`,
unparseable message) escape as `Except.error`; every failure of the
`await SES.sendEmail(params).promise()` expression — promise rejection
or synchronous setup throw — is inside the `try` block and is mapped by
the `catch` to the 400 result. -/
def handler (event : Event) (send : SesParams → SendOutcome) :
    Except Fault (HandlerResult × List SesParams) :=
  match event.Records with
  | [] => .error .typeError
  | r :: _ =>
    match r.Sns.Message with
    | none => .error .syntaxError
    | some obj =>
      let params := buildParams obj
      match send params with
      | .resolves => .ok ({ statusCode := 200, body := "Email sent!" }, [params])
      | .rejects _ => .ok ({ statusCode := 400, body := "Sending failed" }, [params])
      | .setupThrow _ => .ok ({ statusCode := 400, body := "Sending failed" }, [params])

/-- Substring occurrence: `mid` occurs inside `s`. -/
def containsStr (s mid : String) : Prop :=
  ∃ p q : String, s = p ++ mid ++ q

/-- The HTML body is the template prefix, then the verification link,
then the template suffix; hence the link occurs in the body verbatim. -/
theorem htmlData_contains_link (fn ln : JsValue) (link : String) :
    containsStr (htmlData fn ln link) link :=
  ⟨"<html><body>Hello " ++ jsToString fn ++ " " ++ jsToString ln
      ++ ",<br> Thank you for subscribing. To use the portal verify by clicking the below link.<br><br><a href=",
   ">Verify your account</a><br><br><br> Kind Regards,<br> <strong>Team CSYE6225!<strong></body></html>",
   rfl⟩

/-- The coerced first name occurs in the HTML body verbatim. -/
theorem htmlData_contains_first (fn ln : JsValue) (link : String) :
    containsStr (htmlData fn ln link) (jsToString fn) :=
  ⟨"<html><body>Hello ",
   " " ++ jsToString ln
      ++ (",<br> Thank you for subscribing. To use the portal verify by clicking the below link.<br><br><a href="
      ++ (link
      ++ ">Verify your account</a><br><br><br> Kind Regards,<br> <strong>Team CSYE6225!<strong></body></html>")),
   by simp [htmlData, String.append_assoc]⟩

/-- The coerced last name occurs in the HTML body verbatim. -/
theorem htmlData_contains_last (fn ln : JsValue) (link : String) :
    containsStr (htmlData fn ln link) (jsToString ln) :=
  ⟨"<html><body>Hello " ++ jsToString fn ++ " ",
   ",<br> Thank you for subscribing. To use the portal verify by clicking the below link.<br><br><a href="
      ++ (link
      ++ ">Verify your account</a><br><br><br> Kind Regards,<br> <strong>Team CSYE6225!<strong></body></html>"),
   by simp [htmlData, String.append_assoc]⟩

/-- Unfolding of the HTML body of the built request. -/
theorem buildParams_HtmlData (obj : List (String × String)) :
    (buildParams obj).HtmlData =
      htmlData (lookupField obj "first_name") (lookupField obj "last_name")
        (verificationLink (lookupField obj "email") (lookupField obj "token")) :=
  rfl

/-- Unfolding of the destination of the built request. -/
theorem buildParams_ToAddresses (obj : List (String × String)) :
    (buildParams obj).Destination.ToAddresses = [lookupField obj "email"] :=
  rfl

/- Concrete inputs used by the witnesses below. -/

/-- A well-formed payload object with every field present. -/
def objW : List (String × String) :=
  [("first_name", "Jane"), ("last_name", "Doe"), ("password", "pw"),
   ("username", "jd"), ("email", "jane@x.com"), ("token", "abc123")]

/-- A payload object equal to `objW` except for `password` and `username`. -/
def objW2 : List (String × String) :=
  [("first_name", "Jane"), ("last_name", "Doe"), ("password", "other_pw"),
   ("username", "other_user"), ("email", "jane@x.com"), ("token", "abc123")]

/-- A payload object with `email` and `token` (and more) missing. -/
def objMissing : List (String × String) :=
  [("first_name", "Jane"), ("last_name", "Doe")]

/-- A payload object with all of `first_name`, `last_name`, `email` and
`token` missing. -/
def objNone : List (String × String) :=
  [("username", "jd"), ("password", "pw")]

/-- Event carrying `objW` as its single parsed record. -/
def eventW : Event := { Records := [{ Sns := { Message := some objW } }] }

/-- Event carrying `objW2` as its single parsed record. -/
def eventW2 : Event := { Records := [{ Sns := { Message := some objW2 } }] }

/-- Event carrying `objNone` as its single parsed record. -/
def eventNone : Event := { Records := [{ Sns := { Message := some objNone } }] }

/-- Event with an empty record list (`event.Records[0]` is `undefined`). -/
def eventEmpty : Event := { Records := [] }

/-- Event whose first message is not valid JSON (`JSON.parse` throws). -/
def eventBadJson : Event := { Records := [{ Sns := { Message := none } }] }

/-- C1: for every well-formed event payload, if the email collaborator
resolves successfully, the handler returns statusCode 200 with body
"Email sent!", and the collaborator is invoked exactly once (the
invocation trace is the one built request) with a destination equal to
the payload's `email` field. -/
theorem handler_success_returns_200_and_sends_once
    (event : Event) (send : SesParams → SendOutcome)
    (r : SnsRecord) (rs : List SnsRecord) (obj : List (String × String)) (e : String)
    (hrec : event.Records = r :: rs)
    (hmsg : r.Sns.Message = some obj)
    (hemail : lookupField obj "email" = JsValue.str e)
    (hsend : send (buildParams obj) = SendOutcome.resolves) :
    handler event send =
      Except.ok ({ statusCode := 200, body := "Email sent!" }, [buildParams obj])
    ∧ (buildParams obj).Destination.ToAddresses = [JsValue.str e] := by
  constructor
  · simp [handler, hrec, hmsg, hsend]
  · rw [buildParams_ToAddresses, hemail]

/-- Witness for C1 at a concrete well-formed event with a resolving
collaborator. -/
theorem handler_success_returns_200_and_sends_once_witness :
    handler eventW (fun _ => SendOutcome.resolves) =
      Except.ok ({ statusCode := 200, body := "Email sent!" }, [buildParams objW])
    ∧ (buildParams objW).Destination.ToAddresses = [JsValue.str "jane@x.com"] :=
  handler_success_returns_200_and_sends_once eventW (fun _ => SendOutcome.resolves)
    { Sns := { Message := some objW } } [] objW "jane@x.com" rfl rfl rfl rfl

/-- C2: for every well-formed event payload, if the email collaborator
rejects (any rejected outcome), the handler catches the rejection and
returns statusCode 400 with body "Sending failed"; the result is a
normal completion (`Except.ok`), so the rejection is not propagated. -/
theorem handler_rejection_returns_400
    (event : Event) (send : SesParams → SendOutcome)
    (r : SnsRecord) (rs : List SnsRecord) (obj : List (String × String)) (em : String)
    (hrec : event.Records = r :: rs)
    (hmsg : r.Sns.Message = some obj)
    (hsend : send (buildParams obj) = SendOutcome.rejects em) :
    handler event send =
      Except.ok ({ statusCode := 400, body := "Sending failed" }, [buildParams obj]) := by
  simp [handler, hrec, hmsg, hsend]

/-- Witness for C2 at a concrete well-formed event with a rejecting
collaborator. -/
theorem handler_rejection_returns_400_witness :
    handler eventW (fun _ => SendOutcome.rejects "MessageRejected") =
      Except.ok ({ statusCode := 400, body := "Sending failed" }, [buildParams objW]) :=
  handler_rejection_returns_400 eventW (fun _ => SendOutcome.rejects "MessageRejected")
    { Sns := { Message := some objW } } [] objW "MessageRejected" rfl rfl rfl

/-- C3: for every malformed input event — the record list is empty, or
the embedded message is not valid JSON — the handler faults with an
unhandled exception (`Except.error`) instead of returning a
`HandlerResult`. -/
theorem handler_malformed_input_faults
    (event : Event) (send : SesParams → SendOutcome) :
    (event.Records = [] → handler event send = Except.error Fault.typeError)
    ∧ (∀ r rs, event.Records = r :: rs → r.Sns.Message = none →
        handler event send = Except.error Fault.syntaxError) := by
  constructor
  · intro h
    simp [handler, h]
  · intro r rs h1 h2
    simp [handler, h1, h2]

/-- Witness for C3 at a concrete empty-records event and a concrete
event whose message is not valid JSON. -/
theorem handler_malformed_input_faults_witness :
    handler eventEmpty (fun _ => SendOutcome.resolves) = Except.error Fault.typeError
    ∧ handler eventBadJson (fun _ => SendOutcome.resolves) = Except.error Fault.syntaxError :=
  ⟨(handler_malformed_input_faults eventEmpty (fun _ => SendOutcome.resolves)).1 rfl,
   (handler_malformed_input_faults eventBadJson (fun _ => SendOutcome.resolves)).2
     { Sns := { Message := none } } [] rfl rfl⟩

/-- C4: for every well-formed payload, the verification URL is exactly
the fixed base followed by the raw `email` and `token` values joined by
"&token=", formed by direct string concatenation with no
percent-encoding or other transformation, and that exact URL is embedded
in the email body. -/
theorem verification_url_exact_concatenation
    (obj : List (String × String)) (e t : String)
    (he : lookupField obj "email" = JsValue.str e)
    (ht : lookupField obj "token" = JsValue.str t) :
    verificationLink (lookupField obj "email") (lookupField obj "token") =
      "http://prod.polepeddiaravind.me/v1/verifyUserEmail?email=" ++ e ++ "&token=" ++ t
    ∧ containsStr (buildParams obj).HtmlData
        ("http://prod.polepeddiaravind.me/v1/verifyUserEmail?email=" ++ e ++ "&token=" ++ t) := by
  have hlink : verificationLink (lookupField obj "email") (lookupField obj "token") =
      "http://prod.polepeddiaravind.me/v1/verifyUserEmail?email=" ++ e ++ "&token=" ++ t := by
    rw [he, ht]
    simp [verificationLink, jsToString, String.append_empty]
  refine ⟨hlink, ?_⟩
  rw [buildParams_HtmlData, ← hlink]
  exact htmlData_contains_link _ _ _

/-- Witness for C4 at a concrete payload. -/
theorem verification_url_exact_concatenation_witness :
    verificationLink (lookupField objW "email") (lookupField objW "token") =
      "http://prod.polepeddiaravind.me/v1/verifyUserEmail?email=" ++ "jane@x.com" ++ "&token=" ++ "abc123"
    ∧ containsStr (buildParams objW).HtmlData
        ("http://prod.polepeddiaravind.me/v1/verifyUserEmail?email=" ++ "jane@x.com" ++ "&token=" ++ "abc123") :=
  verification_url_exact_concatenation objW "jane@x.com" "abc123" rfl rfl

/-- C5: for every well-formed payload, the rendered HTML body contains
the payload's `first_name` and `last_name` values and the verification
URL as substrings, while the subject and the sender address of every
built request are fixed constants that do not depend on the payload. -/
theorem html_body_contains_names_and_url
    (obj : List (String × String)) (fn ln : String)
    (hfn : lookupField obj "first_name" = JsValue.str fn)
    (hln : lookupField obj "last_name" = JsValue.str ln) :
    containsStr (buildParams obj).HtmlData fn
    ∧ containsStr (buildParams obj).HtmlData ln
    ∧ containsStr (buildParams obj).HtmlData
        (verificationLink (lookupField obj "email") (lookupField obj "token"))
    ∧ ∀ obj2 : List (String × String),
        (buildParams obj2).SubjectData = "Subscribe to the link to use service"
        ∧ (buildParams obj2).Source = "aravind@yprod.polepeddiaravind.me" := by
  refine ⟨?_, ?_, ?_, ?_⟩
  · rw [buildParams_HtmlData, hfn]
    have h := htmlData_contains_first (JsValue.str fn) (lookupField obj "last_name")
      (verificationLink (lookupField obj "email") (lookupField obj "token"))
    simpa [jsToString] using h
  · rw [buildParams_HtmlData, hln]
    have h := htmlData_contains_last (lookupField obj "first_name") (JsValue.str ln)
      (verificationLink (lookupField obj "email") (lookupField obj "token"))
    simpa [jsToString] using h
  · rw [buildParams_HtmlData]
    exact htmlData_contains_link _ _ _
  · intro obj2
    exact ⟨rfl, rfl⟩

/-- Witness for C5 at a concrete payload. -/
theorem html_body_contains_names_and_url_witness :
    containsStr (buildParams objW).HtmlData "Jane"
    ∧ containsStr (buildParams objW).HtmlData "Doe"
    ∧ containsStr (buildParams objW).HtmlData
        (verificationLink (lookupField objW "email") (lookupField objW "token"))
    ∧ ∀ obj2 : List (String × String),
        (buildParams obj2).SubjectData = "Subscribe to the link to use service"
        ∧ (buildParams obj2).Source = "aravind@yprod.polepeddiaravind.me" :=
  html_body_contains_names_and_url objW "Jane" "Doe" rfl rfl

/-- Counterexample to C6 as stated: at a concrete well-formed event, a
collaborator whose invocation setup throws synchronously is caught by
the try/catch (the call sits inside the try block) and converted into
the 400 result, a normal completion, instead of propagating as an
unhandled fault. -/
theorem setup_throw_caught_counterexample :
    handler eventW (fun _ => SendOutcome.setupThrow "ConfigError") =
      Except.ok ({ statusCode := 400, body := "Sending failed" }, [buildParams objW]) :=
  rfl

/-- C6 (amended): a failure thrown during collaborator invocation setup
is also caught, because the whole invocation expression is inside the
try block, and is converted into the 400 result just like a send
rejection; only step-1 parse failures propagate as unhandled faults. -/
theorem setup_throw_converted_to_400
    (event : Event) (send : SesParams → SendOutcome)
    (r : SnsRecord) (rs : List SnsRecord) (obj : List (String × String)) (em : String)
    (hrec : event.Records = r :: rs)
    (hmsg : r.Sns.Message = some obj)
    (hsend : send (buildParams obj) = SendOutcome.setupThrow em) :
    handler event send =
      Except.ok ({ statusCode := 400, body := "Sending failed" }, [buildParams obj]) := by
  simp [handler, hrec, hmsg, hsend]

/-- Witness for the amended C6 at a concrete event. -/
theorem setup_throw_converted_to_400_witness :
    handler eventW2 (fun _ => SendOutcome.setupThrow "ConfigError") =
      Except.ok ({ statusCode := 400, body := "Sending failed" }, [buildParams objW2]) :=
  setup_throw_converted_to_400 eventW2 (fun _ => SendOutcome.setupThrow "ConfigError")
    { Sns := { Message := some objW2 } } [] objW2 "ConfigError" rfl rfl rfl

/-- C7: whenever the handler completes normally, its invocation trace
has exactly one element — one outbound request is constructed and the
collaborator is invoked exactly once, with no retry and no batching —
regardless of the send outcome and of how many records the event
carries. -/
theorem exactly_one_send_invocation
    (event : Event) (send : SesParams → SendOutcome)
    (res : HandlerResult) (trace : List SesParams)
    (h : handler event send = Except.ok (res, trace)) :
    trace.length = 1 := by
  rcases event with ⟨recs⟩
  cases recs with
  | nil => simp [handler] at h
  | cons r rs =>
    cases hm : r.Sns.Message with
    | none => simp [handler, hm] at h
    | some obj =>
      cases hs : send (buildParams obj) with
      | resolves =>
        simp [handler, hm, hs] at h
        simp [← h.2]
      | rejects em =>
        simp [handler, hm, hs] at h
        simp [← h.2]
      | setupThrow em =>
        simp [handler, hm, hs] at h
        simp [← h.2]

/-- Witness for C7 at a concrete event with three records and a
rejecting collaborator. -/
theorem exactly_one_send_invocation_witness :
    ([buildParams objW] : List SesParams).length = 1 :=
  exactly_one_send_invocation
    { Records := [{ Sns := { Message := some objW } },
                  { Sns := { Message := some objW2 } },
                  { Sns := { Message := none } }] }
    (fun _ => SendOutcome.rejects "Throttling")
    { statusCode := 400, body := "Sending failed" } [buildParams objW] rfl

/-- C8: whenever the handler returns a `HandlerResult` (does not fault),
its statusCode is 200 or 400 and nothing else, and its body is the
corresponding fixed string (in particular a string). -/
theorem handler_result_statusCode_200_or_400
    (event : Event) (send : SesParams → SendOutcome)
    (res : HandlerResult) (trace : List SesParams)
    (h : handler event send = Except.ok (res, trace)) :
    (res.statusCode = 200 ∧ res.body = "Email sent!")
    ∨ (res.statusCode = 400 ∧ res.body = "Sending failed") := by
  rcases event with ⟨recs⟩
  cases recs with
  | nil => simp [handler] at h
  | cons r rs =>
    cases hm : r.Sns.Message with
    | none => simp [handler, hm] at h
    | some obj =>
      cases hs : send (buildParams obj) with
      | resolves =>
        simp [handler, hm, hs] at h
        left
        simp [← h.1]
      | rejects em =>
        simp [handler, hm, hs] at h
        right
        simp [← h.1]
      | setupThrow em =>
        simp [handler, hm, hs] at h
        right
        simp [← h.1]

/-- Witness for C8 at a concrete event with a resolving collaborator. -/
theorem handler_result_statusCode_200_or_400_witness :
    (({ statusCode := 200, body := "Email sent!" } : HandlerResult).statusCode = 200
      ∧ ({ statusCode := 200, body := "Email sent!" } : HandlerResult).body = "Email sent!")
    ∨ (({ statusCode := 200, body := "Email sent!" } : HandlerResult).statusCode = 400
      ∧ ({ statusCode := 200, body := "Email sent!" } : HandlerResult).body = "Sending failed") :=
  handler_result_statusCode_200_or_400 eventW (fun _ => SendOutcome.resolves)
    { statusCode := 200, body := "Email sent!" } [buildParams objW] rfl

/-- C9: `username` and `password` are unused — two payloads that agree
on the four used fields (`first_name`, `last_name`, `email`, `token`)
and may differ arbitrarily elsewhere, in particular only in `username`
and/or `password`, yield identical outbound email requests and, under
the same collaborator, identical handler outcomes. -/
theorem username_password_unused
    (o1 o2 : List (String × String)) (send : SesParams → SendOutcome)
    (ev1 ev2 : Event) (r1 r2 : SnsRecord) (t1 t2 : List SnsRecord)
    (hev1 : ev1.Records = r1 :: t1) (hm1 : r1.Sns.Message = some o1)
    (hev2 : ev2.Records = r2 :: t2) (hm2 : r2.Sns.Message = some o2)
    (h1 : lookupField o1 "first_name" = lookupField o2 "first_name")
    (h2 : lookupField o1 "last_name" = lookupField o2 "last_name")
    (h3 : lookupField o1 "email" = lookupField o2 "email")
    (h4 : lookupField o1 "token" = lookupField o2 "token") :
    buildParams o1 = buildParams o2 ∧ handler ev1 send = handler ev2 send := by
  have hbp : buildParams o1 = buildParams o2 := by
    simp only [buildParams]
    rw [h1, h2, h3, h4]
  refine ⟨hbp, ?_⟩
  simp [handler, hev1, hev2, hm1, hm2, hbp]

/-- Witness for C9: two concrete payloads differing only in `password`
and `username` give the same request and the same handler outcome. -/
theorem username_password_unused_witness :
    buildParams objW = buildParams objW2
    ∧ handler eventW (fun _ => SendOutcome.resolves) =
        handler eventW2 (fun _ => SendOutcome.resolves) :=
  username_password_unused objW objW2 (fun _ => SendOutcome.resolves)
    eventW eventW2
    { Sns := { Message := some objW } } { Sns := { Message := some objW2 } } [] []
    rfl rfl rfl rfl rfl rfl rfl rfl

/-- Counterexample to C10 as stated: with a concrete payload lacking the
`email` field, the missing value is NOT rendered as the literal string
"undefined" in the destination — `ToAddresses: [email]` holds the raw
`undefined` value, with no string coercion. -/
theorem missing_field_destination_counterexample :
    (buildParams objMissing).Destination.ToAddresses = [JsValue.undefined]
    ∧ (buildParams objMissing).Destination.ToAddresses ≠ [JsValue.str "undefined"] := by
  constructor
  · rfl
  · intro h
    simp [buildParams, lookupField, objMissing] at h

/-- Substring occurrence is transitive through an intermediate string. -/
theorem containsStr_trans (s t mid : String) (hst : containsStr s t)
    (hmid : containsStr t mid) : containsStr s mid := by
  obtain ⟨p, q, hpq⟩ := hst
  obtain ⟨p2, q2, h2⟩ := hmid
  refine ⟨p ++ p2, q2 ++ q, ?_⟩
  rw [hpq, h2]
  simp [String.append_assoc]

/-- A missing first name is rendered as "undefined" in the greeting slot
of the HTML body. -/
theorem htmlData_undefined_first (ln : JsValue) (link : String) :
    containsStr (htmlData JsValue.undefined ln link) "Hello undefined " := by
  refine ⟨"<html><body>",
    jsToString ln
      ++ (",<br> Thank you for subscribing. To use the portal verify by clicking the below link.<br><br><a href="
      ++ (link
      ++ ">Verify your account</a><br><br><br> Kind Regards,<br> <strong>Team CSYE6225!<strong></body></html>")), ?_⟩
  simp only [htmlData, jsToString, String.append_assoc]
  rfl

/-- A missing last name is rendered as "undefined" in the greeting slot
of the HTML body. -/
theorem htmlData_undefined_last (fn : JsValue) (link : String) :
    containsStr (htmlData fn JsValue.undefined link) " undefined,<br>" := by
  refine ⟨"<html><body>Hello " ++ jsToString fn,
    " Thank you for subscribing. To use the portal verify by clicking the below link.<br><br><a href="
      ++ (link
      ++ ">Verify your account</a><br><br><br> Kind Regards,<br> <strong>Team CSYE6225!<strong></body></html>"), ?_⟩
  simp only [htmlData, jsToString, String.append_assoc]
  rfl

/-- A missing email is rendered as "undefined" in the query string of
the verification URL. -/
theorem verificationLink_undefined_email (t : JsValue) :
    containsStr (verificationLink JsValue.undefined t) "?email=undefined&token=" := by
  refine ⟨"http://prod.polepeddiaravind.me/v1/verifyUserEmail", jsToString t ++ "", ?_⟩
  simp only [verificationLink, jsToString, String.append_assoc]
  rfl

/-- A missing token is rendered as "undefined" in the query string of
the verification URL. -/
theorem verificationLink_undefined_token (e : JsValue) :
    containsStr (verificationLink e JsValue.undefined) "&token=undefined" := by
  refine ⟨"http://prod.polepeddiaravind.me/v1/verifyUserEmail?email=" ++ jsToString e, "", ?_⟩
  simp only [verificationLink, jsToString, String.append_assoc]
  rfl

/-- C10 (amended): for every event whose first message is valid JSON but
lacks one or more of `first_name`, `last_name`, `email`, or `token`, the
handler does not fault — it returns a normal `HandlerResult` under every
collaborator outcome, invoking the collaborator with the one built
request — and each missing value is rendered as the literal string
"undefined" at its slot: a missing first or last name in the greeting of
the HTML body, a missing email or token in the query string of the
verification URL embedded in the body; a missing email additionally puts
the raw `undefined` value (not the string "undefined") in the
destination. -/
theorem missing_fields_no_fault
    (event : Event) (send : SesParams → SendOutcome)
    (r : SnsRecord) (rs : List SnsRecord) (obj : List (String × String))
    (hrec : event.Records = r :: rs)
    (hmsg : r.Sns.Message = some obj)
    (_hmiss : lookupField obj "first_name" = JsValue.undefined
        ∨ lookupField obj "last_name" = JsValue.undefined
        ∨ lookupField obj "email" = JsValue.undefined
        ∨ lookupField obj "token" = JsValue.undefined) :
    (∃ res, handler event send = Except.ok (res, [buildParams obj]))
    ∧ (lookupField obj "first_name" = JsValue.undefined →
        containsStr (buildParams obj).HtmlData "Hello undefined ")
    ∧ (lookupField obj "last_name" = JsValue.undefined →
        containsStr (buildParams obj).HtmlData " undefined,<br>")
    ∧ (lookupField obj "email" = JsValue.undefined →
        containsStr (buildParams obj).HtmlData "?email=undefined&token="
        ∧ (buildParams obj).Destination.ToAddresses = [JsValue.undefined])
    ∧ (lookupField obj "token" = JsValue.undefined →
        containsStr (buildParams obj).HtmlData "&token=undefined") := by
  refine ⟨?_, ?_, ?_, ?_, ?_⟩
  · cases hs : send (buildParams obj) with
    | resolves =>
      exact ⟨{ statusCode := 200, body := "Email sent!" },
        by simp [handler, hrec, hmsg, hs]⟩
    | rejects em =>
      exact ⟨{ statusCode := 400, body := "Sending failed" },
        by simp [handler, hrec, hmsg, hs]⟩
    | setupThrow em =>
      exact ⟨{ statusCode := 400, body := "Sending failed" },
        by simp [handler, hrec, hmsg, hs]⟩
  · intro hf
    rw [buildParams_HtmlData, hf]
    exact htmlData_undefined_first _ _
  · intro hl
    rw [buildParams_HtmlData, hl]
    exact htmlData_undefined_last _ _
  · intro he
    refine ⟨?_, ?_⟩
    · rw [buildParams_HtmlData]
      exact containsStr_trans _ _ _ (htmlData_contains_link _ _ _)
        (by rw [he]; exact verificationLink_undefined_email _)
    · rw [buildParams_ToAddresses, he]
  · intro ht
    rw [buildParams_HtmlData]
    exact containsStr_trans _ _ _ (htmlData_contains_link _ _ _)
      (by rw [ht]; exact verificationLink_undefined_token _)

/-- Witness for the amended C10 at a concrete payload missing all four
of `first_name`, `last_name`, `email`, `token`, with every conditional
conclusion discharged. -/
theorem missing_fields_no_fault_witness :
    (∃ res, handler eventNone (fun _ => SendOutcome.resolves) =
        Except.ok (res, [buildParams objNone]))
    ∧ containsStr (buildParams objNone).HtmlData "Hello undefined "
    ∧ containsStr (buildParams objNone).HtmlData " undefined,<br>"
    ∧ containsStr (buildParams objNone).HtmlData "?email=undefined&token="
    ∧ (buildParams objNone).Destination.ToAddresses = [JsValue.undefined]
    ∧ containsStr (buildParams objNone).HtmlData "&token=undefined" := by
  have h := missing_fields_no_fault eventNone (fun _ => SendOutcome.resolves)
    { Sns := { Message := some objNone } } [] objNone rfl rfl (Or.inl rfl)
  exact ⟨h.1, h.2.1 rfl, h.2.2.1 rfl, (h.2.2.2.1 rfl).1, (h.2.2.2.1 rfl).2,
    h.2.2.2.2 rfl⟩
